import Mathlib

/-!
Verification of the framed transport core and connection typestate of the
xrpl-rust repository, as a shallow embedding in Lean 4.

Byte buffers (the BytesMut values of the source) are modelled as lists of
natural numbers; a mutable-buffer argument becomes an explicit
buffer-in/buffer-out pair. Fallible operations return Except values, and
the poll-based asynchronous operations become functions over an explicit
schedule of underlying-connection results (one list entry per read or
write call), with a pending outcome when the schedule is exhausted.
-/

namespace XrplRust

/-- Byte buffer, modelling the BytesMut values of the source. -/
abbrev BytesMut := List Nat

/-- Codec error kinds, from codec/exceptions.rs (enum CodecException). -/
inductive CodecException
  | DecodeError
  | EncodeError
  | ReadError
  | ReadEmptyError
  | WriteError
deriving DecidableEq, Repr

/-- Model of BytesMut.split_to(n): the first component is the split-off
front of the buffer, the second is what remains in the buffer. -/
def splitTo (buf : BytesMut) (n : Nat) : BytesMut × BytesMut :=
  (buf.take n, buf.drop n)

/-- Codec::encode from codec/mod.rs: reserve capacity, then append the
data verbatim to the tail of the buffer. Returns the mutated buffer. -/
def Codec.encode (data : BytesMut) (buf : BytesMut) : Except CodecException BytesMut :=
  .ok (buf ++ data)

/-- Codec::decode from codec/mod.rs: if the buffer is non-empty, split off
its whole contents (buf.split_to(buf.len())) and return them as one frame;
otherwise return none. The second component is the mutated buffer. -/
def Codec.decode (buf : BytesMut) : Except CodecException (Option BytesMut) × BytesMut :=
  if ¬ buf.isEmpty then
    let len := buf.length
    let parts := splitTo buf len
    (.ok (some parts.1), parts.2)
  else
    (.ok none, buf)

/-- A decoder, from codec/decoder.rs (trait Decoder): its decode method
takes the inbound buffer and returns the decode result together with the
mutated buffer. -/
structure Decoder (Item : Type) where
  decode : BytesMut → Except CodecException (Option Item) × BytesMut

/-- Default decode_eof from codec/decoder.rs: call decode; a frame or an
error is returned as is; on none, an empty buffer is a clean end while a
non-empty buffer is a DecodeError. -/
def Decoder.decode_eof {Item : Type} (d : Decoder Item) (buf : BytesMut) :
    Except CodecException (Option Item) × BytesMut :=
  match d.decode buf with
  | (.error e, b) => (.error e, b)
  | (.ok (some frame), b) => (.ok (some frame), b)
  | (.ok none, b) =>
    if b.isEmpty then (.ok none, b) else (.error .DecodeError, b)

/-- The Decoder impl for Codec from codec/mod.rs (Item = BytesMut). -/
def Codec.decoder : Decoder BytesMut := ⟨Codec.decode⟩

/-- A decoder that always reports that more bytes are needed, leaving the
buffer untouched; used to exercise the none branches of decode_eof. -/
def nullDecoder : Decoder BytesMut := ⟨fun b => (.ok none, b)⟩

/-- Encode a value into an empty outbound buffer with Codec::encode, then
decode the resulting buffer with Codec::decode; the result of the decode
call (loopback round trip through the passthrough codec). -/
def roundTrip (v : BytesMut) : Except CodecException (Option BytesMut) :=
  match Codec.encode v [] with
  | .error e => .error e
  | .ok buf => (Codec.decode buf).1

/-- Helper: Codec::decode on a non-empty buffer yields the whole contents
as one frame and leaves the buffer empty. -/
theorem Codec.decode_eq_of_ne (buf : BytesMut) (h : buf ≠ []) :
    Codec.decode buf = (.ok (some buf), []) := by
  have hne : ¬ buf.isEmpty := by
    cases buf with
    | nil => exact absurd rfl h
    | cons a l => simp [List.isEmpty]
  simp [Codec.decode, hne, splitTo]

/-- Helper: Codec::decode on the empty buffer yields none. -/
theorem Codec.decode_nil : Codec.decode [] = (.ok none, []) := rfl

/-- C2: for every decoder using the default decode_eof and every buffer,
decode_eof first calls decode; a frame from decode is returned as is; a
none result with a non-empty buffer is a DecodeError (no partial frame is
dropped silently); a none result with an empty buffer is a clean end. -/
theorem decode_eof_default_contract {Item : Type} (d : Decoder Item) (buf : BytesMut) :
    (∀ (f : Item) (b : BytesMut), d.decode buf = (.ok (some f), b) →
      d.decode_eof buf = (.ok (some f), b)) ∧
    (∀ b : BytesMut, d.decode buf = (.ok none, b) → b ≠ [] →
      d.decode_eof buf = (.error .DecodeError, b)) ∧
    (∀ b : BytesMut, d.decode buf = (.ok none, b) → b = [] →
      d.decode_eof buf = (.ok none, b)) := by
  refine ⟨?_, ?_, ?_⟩
  · intro f b h
    simp [Decoder.decode_eof, h]
  · intro b h hb
    have hne : ¬ b.isEmpty := by
      cases b with
      | nil => exact absurd rfl hb
      | cons a l => simp [List.isEmpty]
    simp [Decoder.decode_eof, h, hne]
  · intro b h hb
    subst hb
    simp [Decoder.decode_eof, h]

/-- Witness for C2: the three branches of the default decode_eof at
concrete inputs. -/
theorem decode_eof_default_contract_witness :
    Codec.decoder.decode_eof [7] = (.ok (some [7]), []) ∧
    nullDecoder.decode_eof [5] = (.error .DecodeError, [5]) ∧
    nullDecoder.decode_eof [] = (.ok none, []) := by
  refine ⟨?_, ?_, ?_⟩
  · exact (decode_eof_default_contract Codec.decoder [7]).1 [7] [] rfl
  · exact (decode_eof_default_contract nullDecoder [5]).2.1 [5] rfl (by decide)
  · exact (decode_eof_default_contract nullDecoder []).2.2 [] rfl rfl

/-- C5 counterexample: the round trip through the passthrough codec does
not return the empty frame for the empty byte sequence; decode yields none
on the empty buffer, so encoding the empty sequence into an empty buffer
and decoding does not give back some empty frame. -/
theorem roundTrip_empty_counterexample :
    ¬ roundTrip [] = .ok (some ([] : BytesMut)) := by
  intro h
  have h2 : (Except.ok none : Except CodecException (Option BytesMut)) =
      .ok (some ([] : BytesMut)) := h
  simp at h2

/-- C5 (amended): for every non-empty byte sequence v, encoding v into an
empty buffer with Codec::encode and then calling Codec::decode on that
buffer yields some frame equal to v. -/
theorem roundTrip_nonempty (v : BytesMut) (h : v ≠ []) :
    roundTrip v = .ok (some v) := by
  simp [roundTrip, Codec.encode]
  rw [Codec.decode_eq_of_ne v h]

/-- Witness for the amended C5 at a concrete non-empty sequence. -/
theorem roundTrip_nonempty_witness :
    ([1, 2, 3] : BytesMut) ≠ [] ∧ roundTrip [1, 2, 3] = .ok (some [1, 2, 3]) :=
  ⟨by decide, roundTrip_nonempty [1, 2, 3] (by decide)⟩

/-- C6: the passthrough Codec::decode returns the entire buffer contents
as one frame, leaving the buffer empty, when the buffer is non-empty, and
returns none without error when the buffer is empty. -/
theorem passthrough_decode_whole_buffer (buf : BytesMut) :
    (buf ≠ [] → Codec.decode buf = (.ok (some buf), [])) ∧
    (buf = [] → Codec.decode buf = (.ok none, buf)) := by
  constructor
  · intro h
    exact Codec.decode_eq_of_ne buf h
  · intro h
    subst h
    rfl

/-- Witness for C6 at concrete buffers. -/
theorem passthrough_decode_whole_buffer_witness :
    Codec.decode [3, 4] = (.ok (some [3, 4]), []) ∧
    Codec.decode [] = (.ok none, []) :=
  ⟨(passthrough_decode_whole_buffer [3, 4]).1 (by decide),
   (passthrough_decode_whole_buffer []).2 rfl⟩

/-- C10: instantiated at the passthrough codec, the default decode_eof
never reaches its DecodeError branch: it returns the whole buffer as a
frame when the buffer is non-empty and a clean none when it is empty. -/
theorem passthrough_decode_eof_never_errors (buf : BytesMut) :
    Codec.decoder.decode_eof buf =
      (.ok (if buf.isEmpty then none else some buf), []) := by
  cases buf with
  | nil => rfl
  | cons a l =>
    have h : Codec.decode (a :: l) = (.ok (some (a :: l)), []) :=
      Codec.decode_eq_of_ne (a :: l) (by simp)
    simp [Decoder.decode_eof, Codec.decoder, h, List.isEmpty]

/-- INITIAL_CAPACITY from framed/framed_impl.rs: initial capacity of both
frame buffers, 8 KiB. -/
def INITIAL_CAPACITY : Nat := 8 * 1024

/-- BACKPRESSURE_BOUNDARY from framed/framed_impl.rs: equal to the initial
buffer capacity. -/
def BACKPRESSURE_BOUNDARY : Nat := INITIAL_CAPACITY

/-- WriteFrame from framed/framed_impl.rs: owns the outbound byte
buffer. -/
structure WriteFrame where
  buffer : BytesMut
deriving DecidableEq, Repr

/-- Result of one write call on the underlying connection: either the
number of bytes it accepted, or a write error. -/
inductive WriteStep
  | accept (n : Nat)
  | fail
deriving DecidableEq, Repr

/-- Result of the final flush call on the underlying connection itself. -/
inductive InnerFlush
  | ok
  | fail
deriving DecidableEq, Repr

/-- Outcome of the poll_ready / poll_flush operations of the framed
transport: admission or flush completed, the fatal zero-byte-write error
(FramedException::WriteToTransport), an underlying io error, or a
suspension awaiting writability. -/
inductive FlushResult
  | ok
  | writeToTransport
  | ioError
  | pending
deriving DecidableEq, Repr

/-- poll_write_buf from framed/framed_impl.rs: a no-remaining buffer
yields 0 without touching the connection; otherwise one write call is
issued with the buffer head and the buffer is advanced past the accepted
bytes. The connection contract keeps the accepted count at or below the
offered chunk length. -/
def poll_write_buf (step : WriteStep) (buf : BytesMut) : Except Unit (Nat × BytesMut) :=
  if buf.isEmpty then .ok (0, buf)
  else
    match step with
    | .fail => .error ()
    | .accept n => .ok (n, buf.drop n)

/-- FramedImpl::poll_flush from framed/framed_impl.rs: while the outbound
buffer is non-empty, write from its head via poll_write_buf; a write error
propagates, a zero-byte write is the fatal WriteToTransport error, and
otherwise the written head is dropped and the loop continues. Once the
buffer is empty the underlying connection itself is flushed. The schedule
of write results stands for successive write calls; an exhausted schedule
is a suspension. -/
def poll_flush (innerFlush : InnerFlush) : List WriteStep → WriteFrame → FlushResult × WriteFrame
  | steps, st =>
    if st.buffer.isEmpty then
      match innerFlush with
      | .ok => (.ok, st)
      | .fail => (.ioError, st)
    else
      match steps with
      | [] => (.pending, st)
      | step :: rest =>
        match poll_write_buf step st.buffer with
        | .error _ => (.ioError, st)
        | .ok (n, buf) =>
          if n = 0 then (.writeToTransport, st)
          else poll_flush innerFlush rest ⟨buf⟩

/-- FramedImpl::poll_ready from framed/framed_impl.rs: if the outbound
buffer length is at or above BACKPRESSURE_BOUNDARY, flush first;
otherwise admission is immediate. -/
def poll_ready (innerFlush : InnerFlush) (steps : List WriteStep) (st : WriteFrame) :
    FlushResult × WriteFrame :=
  if st.buffer.length ≥ BACKPRESSURE_BOUNDARY then poll_flush innerFlush steps st
  else (.ok, st)

/-- Helper: a flush that reports success has drained the outbound buffer
completely. -/
theorem poll_flush_ok_drains (innerFlush : InnerFlush) (steps : List WriteStep)
    (st st' : WriteFrame) (h : poll_flush innerFlush steps st = (.ok, st')) :
    st'.buffer = [] := by
  induction steps generalizing st with
  | nil =>
    rw [poll_flush.eq_def] at h
    by_cases hb : st.buffer.isEmpty
    · simp [hb] at h
      cases innerFlush with
      | ok =>
        simp at h
        subst h
        exact List.isEmpty_iff.mp hb
      | fail => simp at h
    · simp [hb] at h
  | cons step rest ih =>
    rw [poll_flush.eq_def] at h
    by_cases hb : st.buffer.isEmpty
    · simp [hb] at h
      cases innerFlush with
      | ok =>
        simp at h
        subst h
        exact List.isEmpty_iff.mp hb
      | fail => simp at h
    · simp [hb, poll_write_buf] at h
      cases step with
      | fail => simp at h
      | accept n =>
        simp at h
        by_cases hn : n = 0
        · simp [hn] at h
        · simp [hn] at h
          exact ih _ h

/-- Helper: on an empty outbound buffer, poll_flush goes straight to the
flush of the underlying connection. -/
theorem poll_flush_empty (innerFlush : InnerFlush) (steps : List WriteStep)
    (st : WriteFrame) (h : st.buffer = []) :
    poll_flush innerFlush steps st =
      ((match innerFlush with | .ok => .ok | .fail => .ioError), st) := by
  rw [poll_flush.eq_def]
  have hb : st.buffer.isEmpty := by simp [h]
  cases steps <;> simp [hb] <;> cases innerFlush <;> rfl

/-- C3: the admission check of the framed transport succeeds immediately,
with untouched state, when the outbound buffer length is strictly below
the backpressure boundary (8 KiB, the initial capacity); at or above the
boundary it instead performs poll_flush, and admission succeeds only when
that flush has drained the buffer completely. -/
theorem poll_ready_backpressure (innerFlush : InnerFlush) (steps : List WriteStep)
    (st : WriteFrame) :
    (st.buffer.length < BACKPRESSURE_BOUNDARY →
      poll_ready innerFlush steps st = (.ok, st)) ∧
    (st.buffer.length ≥ BACKPRESSURE_BOUNDARY →
      poll_ready innerFlush steps st = poll_flush innerFlush steps st ∧
      ∀ st' : WriteFrame, poll_flush innerFlush steps st = (.ok, st') →
        st'.buffer = []) ∧
    BACKPRESSURE_BOUNDARY = 8 * 1024 ∧
    BACKPRESSURE_BOUNDARY = INITIAL_CAPACITY := by
  refine ⟨?_, ?_, rfl, rfl⟩
  · intro h
    have hlt : ¬ st.buffer.length ≥ BACKPRESSURE_BOUNDARY := by omega
    simp [poll_ready, hlt]
  · intro h
    refine ⟨by simp [poll_ready, h], ?_⟩
    intro st' hf
    exact poll_flush_ok_drains innerFlush steps st st' hf

/-- Witness for C3: a small buffer is admitted immediately; a buffer of
exactly the boundary length routes through poll_flush and is admitted
drained after a full write. -/
theorem poll_ready_backpressure_witness :
    ((WriteFrame.mk [1, 2]).buffer.length < BACKPRESSURE_BOUNDARY ∧
      poll_ready .ok [] ⟨[1, 2]⟩ = (.ok, ⟨[1, 2]⟩)) ∧
    ((WriteFrame.mk (List.replicate 8192 0)).buffer.length ≥ BACKPRESSURE_BOUNDARY ∧
      poll_ready .ok [.accept 8192] ⟨List.replicate 8192 0⟩ =
        poll_flush .ok [.accept 8192] ⟨List.replicate 8192 0⟩) := by
  have hlen : (WriteFrame.mk (List.replicate 8192 0)).buffer.length = 8192 := by
    show (List.replicate 8192 0).length = 8192
    rw [List.length_replicate]
  have hsmall : (WriteFrame.mk [1, 2]).buffer.length < BACKPRESSURE_BOUNDARY := by
    show 2 < BACKPRESSURE_BOUNDARY
    rw [BACKPRESSURE_BOUNDARY, INITIAL_CAPACITY]
    omega
  have hbig : (WriteFrame.mk (List.replicate 8192 0)).buffer.length ≥ BACKPRESSURE_BOUNDARY := by
    rw [hlen, BACKPRESSURE_BOUNDARY, INITIAL_CAPACITY]
  constructor
  · exact ⟨hsmall, (poll_ready_backpressure .ok [] ⟨[1, 2]⟩).1 hsmall⟩
  · exact ⟨hbig,
      ((poll_ready_backpressure .ok [.accept 8192] ⟨List.replicate 8192 0⟩).2.1 hbig).1⟩

/-- C4: during a flush with a non-empty outbound buffer, a write that
accepts 0 bytes terminates the flush immediately with the fatal
WriteToTransport error and an unchanged buffer; a write that accepts n > 0
bytes drops the written n-byte head from the buffer and the flush
continues; and once the buffer is empty the flush of the underlying
connection itself is invoked and decides the outcome. -/
theorem poll_flush_contract (innerFlush : InnerFlush) :
    (∀ (rest : List WriteStep) (st : WriteFrame), st.buffer ≠ [] →
      poll_flush innerFlush (.accept 0 :: rest) st = (.writeToTransport, st)) ∧
    (∀ (n : Nat) (rest : List WriteStep) (st : WriteFrame), st.buffer ≠ [] → n ≠ 0 →
      poll_flush innerFlush (.accept n :: rest) st =
        poll_flush innerFlush rest ⟨st.buffer.drop n⟩) ∧
    (∀ (steps : List WriteStep) (st : WriteFrame), st.buffer = [] →
      poll_flush innerFlush steps st =
        ((match innerFlush with | .ok => .ok | .fail => .ioError), st)) := by
  refine ⟨?_, ?_, ?_⟩
  · intro rest st h
    have hb : ¬ st.buffer.isEmpty := by simp [List.isEmpty_iff, h]
    rw [poll_flush.eq_def]
    simp [hb, poll_write_buf]
  · intro n rest st h hn
    have hb : ¬ st.buffer.isEmpty := by simp [List.isEmpty_iff, h]
    rw [poll_flush.eq_def]
    simp [hb, poll_write_buf, hn]
  · intro steps st h
    exact poll_flush_empty innerFlush steps st h

/-- Witness for C4: the three flush behaviours at concrete states. -/
theorem poll_flush_contract_witness :
    poll_flush .ok [.accept 0] ⟨[9, 9]⟩ = (.writeToTransport, ⟨[9, 9]⟩) ∧
    poll_flush .ok [.accept 1, .accept 1] ⟨[5, 6]⟩ =
      poll_flush .ok [.accept 1] ⟨[6]⟩ ∧
    poll_flush .fail [] ⟨[]⟩ = (.ioError, ⟨[]⟩) := by
  refine ⟨?_, ?_, ?_⟩
  · exact (poll_flush_contract .ok).1 [] ⟨[9, 9]⟩ (by decide)
  · have h := (poll_flush_contract .ok).2.1 1 [.accept 1] ⟨[5, 6]⟩ (by decide) (by decide)
    simpa using h
  · exact (poll_flush_contract .fail).2.2 [] ⟨[]⟩ rfl

/-- ReadFrame from framed/framed_impl.rs: owns the inbound byte buffer
and the read-state flags. The source field is_readable is what the spec
calls has_pending_decodable_data. -/
structure ReadFrame where
  eof : Bool
  is_readable : Bool
  buffer : BytesMut
  has_errored : Bool
deriving DecidableEq, Repr

/-- Result of one read call on the underlying connection: a chunk of
bytes appended to the inbound buffer (the returned byte count is the chunk
length), or a read error. -/
inductive ReadStep
  | bytes (chunk : BytesMut)
  | fail
deriving DecidableEq, Repr

/-- Outcome of one poll_next call of the framed transport: a decoded
frame, a codec error, a read error from the connection, end of the frame
sequence, or a suspension awaiting readability. -/
inductive PollNext (Item : Type)
  | frame (f : Item)
  | frameError (e : CodecException)
  | readError
  | done
  | pending
deriving DecidableEq, Repr

/-- The decode phase of FramedImpl::poll_next (the is_readable branch of
the loop body): at end of stream it always returns, via decode_eof; before
end of stream a frame or an error returns while a none result clears
is_readable and falls through to the read phase. The inl constructor is an
immediate return, inr the state handed to the read phase. -/
def decodePhase {Item : Type} (d : Decoder Item) (st : ReadFrame) :
    (PollNext Item × ReadFrame) ⊕ ReadFrame :=
  if st.is_readable then
    if st.eof then
      match d.decode_eof st.buffer with
      | (.error e, b) => .inl (.frameError e, { st with buffer := b, has_errored := true })
      | (.ok (some f), b) => .inl (.frame f, { st with buffer := b })
      | (.ok none, b) => .inl (.done, { st with buffer := b, is_readable := false })
    else
      match d.decode st.buffer with
      | (.error e, b) => .inl (.frameError e, { st with buffer := b, has_errored := true })
      | (.ok (some f), b) => .inl (.frame f, { st with buffer := b })
      | (.ok none, b) => .inr { st with buffer := b, is_readable := false }
  else
    .inr st

/-- FramedImpl::poll_next from framed/framed_impl.rs: if has_errored, the
frame-producing sequence ends for this pull after clearing is_readable and
has_errored, with no decode and no read; otherwise the decode phase runs
and, when it needs bytes, one read appends a chunk to the buffer, the
end-of-stream flag is updated from the byte count (a zero-byte read at end
of stream ends the sequence, otherwise it sets end of stream; a non-empty
read clears it), is_readable is set and the loop continues. The schedule
of read results stands for successive read calls; an exhausted schedule is
a suspension. -/
def poll_next {Item : Type} (d : Decoder Item) (reads : List ReadStep) (st : ReadFrame) :
    PollNext Item × ReadFrame :=
  if st.has_errored then
    (.done, { st with is_readable := false, has_errored := false })
  else
    match decodePhase d st with
    | .inl r => r
    | .inr st' =>
      match reads with
      | [] => (.pending, st')
      | .fail :: _ => (.readError, { st' with has_errored := true })
      | .bytes chunk :: rest =>
        let stb := { st' with buffer := st'.buffer ++ chunk }
        if chunk.length = 0 then
          if stb.eof then (.done, stb)
          else poll_next d rest { stb with eof := true, is_readable := true }
        else poll_next d rest { stb with eof := false, is_readable := true }
termination_by reads.length
decreasing_by all_goals simp

/-- C8: whenever has_errored is set, the next pull clears both
is_readable (the pending-decodable-data flag) and has_errored, yields end
of sequence, and leaves the buffer and end-of-stream flag untouched; the
outcome is the same for every decoder and every read schedule, so no
decode and no read is attempted while the flag is set. -/
theorem poll_next_errored_resets {Item : Type} (d d' : Decoder Item)
    (reads reads' : List ReadStep) (st : ReadFrame) (h : st.has_errored = true) :
    poll_next d reads st =
      (.done, { st with is_readable := false, has_errored := false }) ∧
    poll_next d reads st = poll_next d' reads' st := by
  constructor
  · rw [poll_next.eq_def]
    simp [h]
  · rw [poll_next.eq_def, poll_next.eq_def]
    simp [h]

/-- Witness for C8: an errored read state with a non-empty buffer resets
its flags and ends the sequence, independently of decoder and schedule. -/
theorem poll_next_errored_resets_witness :
    poll_next Codec.decoder [] ⟨false, true, [1], true⟩ =
      (.done, ⟨false, false, [1], false⟩) ∧
    poll_next Codec.decoder [] ⟨false, true, [1], true⟩ =
      poll_next nullDecoder [.bytes [2]] ⟨false, true, [1], true⟩ :=
  poll_next_errored_resets Codec.decoder nullDecoder [] [.bytes [2]]
    ⟨false, true, [1], true⟩ rfl

/-- The compile-time status marker types Open and Closed from
asynch/clients/websocket/async_websocket_client.rs, embedded as a tag.
Comparing the stringified type names of two marker types is the same as
comparing the tags, since distinct marker types have distinct names. -/
inductive StatusMarker
  | Open
  | Closed
deriving DecidableEq, Repr, BEq

/-- Model of the underlying websocket stream handle wrapped by the
session: the field records whether the connection is actually established
and usable right now. The source type carries no such observable state for
the session to consult. -/
structure WebSocketStream where
  connectionAlive : Bool
deriving DecidableEq, Repr

/-- AsyncWebsocketClient from asynch/clients/websocket/async_websocket_client.rs:
wraps an inner stream and carries the phantom status marker, embedded here
as a tag field. -/
structure AsyncWebsocketClient (T : Type) where
  inner : T
  status : StatusMarker
deriving DecidableEq, Repr

/-- AsyncWebsocketClient::is_open from the source: it compares the
stringified name of the status marker type with the name of Open, which
amounts to comparing the tag with Open; the inner connection is never
consulted. -/
def AsyncWebsocketClient.is_open {T : Type} (c : AsyncWebsocketClient T) : Bool :=
  c.status == StatusMarker.Open

/-- An Open-tagged session whose underlying connection has failed or
closed: the tag says Open while the connection is no longer usable. -/
def deadOpenSession : AsyncWebsocketClient WebSocketStream :=
  ⟨⟨false⟩, .Open⟩

/-- C1 (code evaluated at the failing input): the source computes is_open
from the status marker type alone, so an Open-tagged session whose
underlying connection has failed still reports is_open = true, against the
required live-status semantics. -/
theorem is_open_ignores_connection_liveness :
    deadOpenSession.inner.connectionAlive = false ∧
    deadOpenSession.is_open = true := by
  constructor <;> rfl

/-- Outcome of the handshake performed by the external collaborator
(tokio_tungstenite::connect_async): an established stream or a failure. -/
inductive HandshakeOutcome (T : Type)
  | ok (stream : T)
  | err
deriving DecidableEq, Repr

/-- Observable outcome of WebsocketOpen::open: an Open session returned in
Ok, an error value returned in Err, or a panic that aborts. -/
inductive OpenOutcome (T : Type)
  | ok (client : AsyncWebsocketClient T)
  | error
  | panicked
deriving DecidableEq, Repr

/-- WebsocketOpen::open from
asynch/clients/websocket/async_websocket_client.rs: the handshake result
is unwrapped, so a successful handshake yields Ok with an Open-tagged
session around the established stream, while a failed handshake panics;
the error constructor of the outcome type is never produced. -/
def WebsocketOpen.open_impl {T : Type} (handshake : HandshakeOutcome T) : OpenOutcome T :=
  match handshake with
  | .ok stream => .ok ⟨stream, .Open⟩
  | .err => .panicked

/-- C7 (code evaluated at the failing input): on a successful handshake,
open returns an Open-tagged session wrapping the established stream, but
on a handshake failure the unwrap panics instead of returning an error
value. -/
theorem open_panics_on_handshake_failure :
    WebsocketOpen.open_impl (T := WebSocketStream) (.ok ⟨true⟩) =
      .ok ⟨⟨true⟩, .Open⟩ ∧
    WebsocketOpen.open_impl (T := WebSocketStream) .err = .panicked := by
  constructor <;> rfl

/-- The session operations of
asynch/clients/websocket/async_websocket_client.rs. -/
inductive SessionMethod
  | openConn
  | send
  | on_message
  | close
deriving DecidableEq, Repr

/-- Transcription of which status marker each trait impl of the source is
declared on: WebsocketOpen (open) is implemented for the Closed-tagged
client only, while WebsocketIO (send, on_message) and WebsocketClose
(close) are implemented for the Open-tagged client only; no other impl
exists. -/
def methodExposedOn : SessionMethod → StatusMarker → Bool
  | .openConn, .Closed => true
  | .send, .Open => true
  | .on_message, .Open => true
  | .close, .Open => true
  | _, _ => false

/-- C9: the send and receive operations of the typestate session are
exposed exactly on the Open-tagged value; a Closed-tagged session, which
has not completed connect, has no send or on_message operation, while
connect itself is exposed only on the Closed-tagged value. -/
theorem typestate_io_gated_on_open (st : StatusMarker) :
    (methodExposedOn .send st = true ↔ st = .Open) ∧
    (methodExposedOn .on_message st = true ↔ st = .Open) ∧
    (methodExposedOn .openConn st = true ↔ st = .Closed) := by
  cases st <;> refine ⟨?_, ?_, ?_⟩ <;> simp [methodExposedOn]

end XrplRust
